import Mathlib

/-!
Shallow embedding of the Tessera backend supervisor
(`src/tauri/src/lib.rs`): a `BackendManager` owning a mutex-protected
`Vec<Child>` process table, the launch helpers `start_python_services`
and `start_perl_service`, the background launch sequence spawned by
`BackendManager::start_services`, `BackendManager::stop_services`, and
the Tauri command wrappers `start_backend_services`,
`stop_backend_services`, `check_service_health`.

Modelling choices:
- A `Child` is identified by a pid (`Nat`).  Spawning is parameterised
  by a `SpawnEnv` of booleans saying which OS operations succeed
  (`std::env::current_dir`, and the three `Command::spawn` calls).
- `SysState` threads the supervisor's table (`processes` vector)
  together with the OS view: which spawned processes are currently
  alive, and on which children a kill+wait was attempted.  Dropping a
  Rust `Child` handle does not kill the process, so a spawned child
  that is never pushed into the table stays in `alive` untracked.
- The background thread body (`thread::spawn` closure at lines 23-40)
  is modelled as the sequential function `launchSequence`, returning
  the final state and the trace of observable events: group launch
  attempts, `eprintln!` log lines, `thread::sleep` durations and the
  `emit_to("main", "backend-ready", ())` emission.  This is the
  complete schedule of that single background thread.
- OS error strings (from `io::Error`) are abstracted to fixed strings;
  only their presence matters.
-/

namespace Tessera

/-- A spawned OS child process handle (Rust `std::process::Child`). -/
structure Child where
  pid : Nat
deriving DecidableEq, BEq, Repr

/-- Supervisor-plus-OS state threaded through the launch functions.
`table` is the `processes: Arc<Mutex<Vec<Child>>>` vector; `alive` is
the set (as a list) of OS processes spawned by the supervisor that are
still running; `killed` records every child on which a kill+wait was
attempted; `nextPid` is the next fresh pid the OS will hand out. -/
structure SysState where
  table : List Child
  alive : List Child
  killed : List Child
  nextPid : Nat
deriving DecidableEq, Repr

/-- The state before anything was started. -/
def initState : SysState := ⟨[], [], [], 0⟩

/-- Which fallible OS operations succeed during one launch sequence:
`std::env::current_dir` (line 57/88) and the three `spawn` calls for
the embedding, gemini and perl services. -/
structure SpawnEnv where
  cwdOk : Bool
  embeddingOk : Bool
  geminiOk : Bool
  perlOk : Bool
deriving DecidableEq, Repr

/-- One `Command::spawn` call: on success the OS creates a fresh live
process and returns its handle; on failure the state is unchanged. -/
def spawnChild (ok : Bool) (s : SysState) : Option Child × SysState :=
  if ok then
    (some ⟨s.nextPid⟩,
      { s with alive := s.alive ++ [⟨s.nextPid⟩], nextPid := s.nextPid + 1 })
  else (none, s)

/-- `start_python_services` (lines 55-84): resolve the working
directory, spawn the embedding service (`?` propagates failure), spawn
the gemini service (`?` propagates failure — note the already-spawned
embedding child is dropped without ever being pushed), then push both
children into the table and return `Ok(())`. -/
def start_python_services (env : SpawnEnv) (s : SysState) :
    Except String Unit × SysState :=
  if env.cwdOk then
    match spawnChild env.embeddingOk s with
    | (none, s1) => (.error "spawn failed", s1)
    | (some embedding_service, s1) =>
      match spawnChild env.geminiOk s1 with
      | (none, s2) => (.error "spawn failed", s2)
      | (some gemini_service, s2) =>
        (.ok (),
          { s2 with table := s2.table ++ [embedding_service, gemini_service] })
  else (.error "current_dir failed", s)

/-- `start_perl_service` (lines 86-103): resolve the working directory,
spawn the perl api server (`?` propagates failure), push the child into
the table and return `Ok(())`. -/
def start_perl_service (env : SpawnEnv) (s : SysState) :
    Except String Unit × SysState :=
  if env.cwdOk then
    match spawnChild env.perlOk s with
    | (none, s1) => (.error "spawn failed", s1)
    | (some perl_service, s1) =>
      (.ok (), { s1 with table := s1.table ++ [perl_service] })
  else (.error "current_dir failed", s)

/-- Observable events of the background launch thread: a group launch
attempt, an `eprintln!` log line, a `thread::sleep` of a duration in
seconds, and an `emit_to("main", event, ())` emission. -/
inductive Event where
  | attempted : String → Event
  | logged : String → Event
  | slept : Nat → Event
  | emitted : String → Event
deriving DecidableEq, BEq, Repr

/-- The body of the background thread spawned by
`BackendManager::start_services` (lines 23-40): attempt the python
group (logging any error), sleep 3 s, attempt the perl group (logging
any error), sleep 2 s, emit `backend-ready` to the frontend. -/
def launchSequence (env : SpawnEnv) (s : SysState) : SysState × List Event :=
  let p := start_python_services env s
  let e1 : List Event :=
    match p.1 with
    | .error m => [.logged ("Failed to start Python services: " ++ m)]
    | .ok _ => []
  let q := start_perl_service env p.2
  let e2 : List Event :=
    match q.1 with
    | .error m => [.logged ("Failed to start Perl service: " ++ m)]
    | .ok _ => []
  (q.2,
    [Event.attempted "python"] ++ e1
      ++ [Event.slept 3, Event.attempted "perl"] ++ e2
      ++ [Event.slept 2, Event.emitted "backend-ready"])

/-- `BackendManager::start_services` (lines 20-43): spawn the
background launch thread and immediately return `Ok(())` to the caller.
There is no phase guard of any kind: every call unconditionally starts
a fresh launch sequence.  The first component is the synchronous return
value seen by the caller; the rest is the effect of the background
thread (one complete schedule of it). -/
def BackendManager.start_services (env : SpawnEnv) (s : SysState) :
    Except String Unit × SysState × List Event :=
  (.ok (), launchSequence env s)

/-- `BackendManager::stop_services` (lines 45-52): lock the table,
drain every child, `kill()` then `wait()` each (results ignored), leave
the vector empty.  Returns unit — it cannot fail the caller. -/
def BackendManager.stop_services (s : SysState) : SysState :=
  { s with
    table := []
    alive := s.alive.filter (fun c => !(s.table.contains c))
    killed := s.killed ++ s.table }

/-- Tauri command `start_backend_services` (lines 106-115): forward to
`start_services`, mapping success to a fixed message. -/
def start_backend_services (env : SpawnEnv) (s : SysState) :
    Except String String × SysState × List Event :=
  match BackendManager.start_services env s with
  | (.error e, rest) => (.error e, rest)
  | (.ok _, rest) => (.ok "Backend services starting...", rest)

/-- Tauri command `stop_backend_services` (lines 117-121): call
`stop_services` and always return the fixed success message. -/
def stop_backend_services (s : SysState) : Except String String × SysState :=
  (.ok "Backend services stopped", BackendManager.stop_services s)

/-- Tauri command `check_service_health` (lines 123-127): a stub that
always answers `Ok("Services running")`, regardless of any state. -/
def check_service_health : Except String String := .ok "Services running"

/-- The static launch surface of one `Command` invocation: program
string, argument vector, working directory. -/
structure ProcessSpec where
  program : String
  args : List String
  currentDir : String
deriving DecidableEq, Repr

/-- The embedding-service `Command` (lines 61-67), relative to the
resolved project root. -/
def embeddingCommand (projectRoot : String) : ProcessSpec :=
  { program := "./venv/bin/python3"
    args := ["-m", "src.services.embedding_service"]
    currentDir := projectRoot ++ "/backend/python-backend" }

/-- The gemini-service `Command` (lines 70-76). -/
def geminiCommand (projectRoot : String) : ProcessSpec :=
  { program := "./venv/bin/python3"
    args := ["-m", "src.services.gemini_service"]
    currentDir := projectRoot ++ "/backend/python-backend" }

/-- The perl-api-server `Command` (lines 91-96). -/
def perlCommand (projectRoot : String) : ProcessSpec :=
  { program := "perl"
    args := ["perl-backend/script/api_server.pl"]
    currentDir := projectRoot ++ "/backend" }

/-- Unix `Command` semantics: the program is looked up on the
process-wide `PATH` exactly when its name contains no path separator;
a name containing `/` is resolved relative to the working directory. -/
def usesPathLookup (spec : ProcessSpec) : Bool :=
  !(spec.program.toList.contains '/')

/-- Number of occurrences of an event in a trace. -/
def countEvent (e : Event) : List Event → Nat
  | [] => 0
  | x :: rest => (if x = e then 1 else 0) + countEvent e rest

/-- Total seconds slept before the first emission in a trace. -/
def sleptBeforeEmit : List Event → Nat
  | [] => 0
  | Event.emitted _ :: _ => 0
  | Event.slept n :: rest => n + sleptBeforeEmit rest
  | _ :: rest => sleptBeforeEmit rest

/-- Number of events of a trace satisfying a predicate. -/
def countIf (p : Event → Bool) : List Event → Nat
  | [] => 0
  | x :: rest => (if p x then 1 else 0) + countIf p rest

/-- Whether an event is any `emit_to` emission. -/
def Event.isEmit : Event → Bool
  | .emitted _ => true
  | _ => false

/-- Whether an event is any `eprintln!` log line. -/
def Event.isLogLine : Event → Bool
  | .logged _ => true
  | _ => false

/-- Whether an event is the `eprintln!` line logged when
`start_python_services` returns an error (either of the two error
sources: a failed spawn or a failed `current_dir`). -/
def Event.isPythonFailLog : Event → Bool
  | .logged m =>
    m == "Failed to start Python services: spawn failed"
      || m == "Failed to start Python services: current_dir failed"
  | _ => false

/-- Number of processes one launch sequence actually spawns: embedding
if its spawn succeeds, gemini only if embedding succeeded too (the `?`
aborts the python group before gemini otherwise), and perl
independently; nothing when `current_dir` fails. -/
def spawnCount (env : SpawnEnv) : Nat :=
  if env.cwdOk then
    (if env.embeddingOk then 1 else 0)
      + (if env.embeddingOk && env.geminiOk then 1 else 0)
      + (if env.perlOk then 1 else 0)
  else 0

/-!
## Claims
-/

/-- C1: the claim says a spawn failure after earlier members of the
same group were spawned leaves the earlier processes registered in the
process table.  The code violates this: with the embedding spawn
succeeding and the gemini spawn failing, `start_python_services`
returns through the `?` operator before the table push, so the live
embedding child (pid 0) is dropped unregistered — the table stays
empty, the process stays alive, and a subsequent `stop_services` kills
nothing, leaving the process alive and untracked.  This contradicts
the spec's own invariant (no handle silently dropped while the process
may be alive) and its start-then-stop property, so it is a code bug. -/
theorem c1_dropped_handle_on_python_group_failure :
    (start_python_services ⟨true, true, false, true⟩ initState).1
        = .error "spawn failed"
      ∧ (start_python_services ⟨true, true, false, true⟩ initState).2.table = []
      ∧ (start_python_services ⟨true, true, false, true⟩ initState).2.alive
        = [⟨0⟩]
      ∧ (BackendManager.stop_services
          (start_python_services ⟨true, true, false, true⟩ initState).2).alive
        = [⟨0⟩]
      ∧ (BackendManager.stop_services
          (start_python_services ⟨true, true, false, true⟩ initState).2).killed
        = [] :=
  ⟨rfl, rfl, rfl, rfl, rfl⟩

/-- C2 counterexample: `start_services` has no already-running guard.
After a first call from the initial state (all spawns succeeding, three
processes alive), a second call returns `Ok(())` — not an
already-running error — and its launch sequence spawns three further
processes, for six alive in total. -/
theorem c2_second_start_not_guarded_cex :
    (BackendManager.start_services ⟨true, true, true, true⟩ initState).2.1.alive.length
        = 3
      ∧ (BackendManager.start_services ⟨true, true, true, true⟩
          (BackendManager.start_services ⟨true, true, true, true⟩ initState).2.1).1
        = .ok ()
      ∧ (BackendManager.start_services ⟨true, true, true, true⟩
          (BackendManager.start_services ⟨true, true, true, true⟩ initState).2.1).2.1.alive.length
        = 6 :=
  ⟨rfl, rfl, rfl⟩

/-- C2 amended: every call to `start_services`, in any state, returns
`Ok(())` and unconditionally runs a fresh launch sequence — attempting
the python group exactly once and spawning `spawnCount env` further
processes.  There is no guard, no already-running error, and a second
call does double-spawn. -/
theorem c2_no_guard_every_call_launches (env : SpawnEnv) (s : SysState) :
    (BackendManager.start_services env s).1 = .ok ()
      ∧ (BackendManager.start_services env s).2.1.alive.length
        = s.alive.length + spawnCount env
      ∧ countEvent (.attempted "python")
          (BackendManager.start_services env s).2.2 = 1 := by
  obtain ⟨cw, eo, go, po⟩ := env
  cases cw <;> cases eo <;> cases go <;> cases po <;>
    refine ⟨rfl, ?_, rfl⟩ <;>
    simp [BackendManager.start_services, launchSequence,
      start_python_services, start_perl_service, spawnChild, spawnCount,
      countEvent]

/-- C3 counterexample: with the embedding spawn failing, the caller of
`Start` (`start_backend_services`) still receives the success value
`Ok("Backend services starting...")`; the `SpawnError` is only logged
inside the background thread, never reported as an error value to the
caller. -/
theorem c3_spawn_error_not_reported_to_caller_cex :
    (start_backend_services ⟨true, false, true, true⟩ initState).1
        = .ok "Backend services starting..."
      ∧ countIf Event.isPythonFailLog
          (start_backend_services ⟨true, false, true, true⟩ initState).2.2 = 1 :=
  ⟨rfl, rfl⟩

/-- C3 amended: whenever any of the three spawns fails — the embedding
spawn, the gemini spawn (attempted only after a successful embedding
spawn) or the perl spawn, i.e. whenever not all three succeed with the
working directory resolving — the `SpawnError` is never fatal to the
supervisor: the background sequence logs at least one error line, still
attempts both groups exactly once and still emits the ready event
exactly once; but the error is not reported as an error value to the
caller of `Start`: `start_backend_services` always returns
`Ok("Backend services starting...")`. -/
theorem c3_spawn_error_logged_not_fatal (env : SpawnEnv) (s : SysState)
    (hc : env.cwdOk = true)
    (hf : (env.embeddingOk && env.geminiOk && env.perlOk) = false) :
    (start_backend_services env s).1 = .ok "Backend services starting..."
      ∧ 1 ≤ countIf Event.isLogLine (start_backend_services env s).2.2
      ∧ countEvent (.attempted "python") (start_backend_services env s).2.2 = 1
      ∧ countEvent (.attempted "perl") (start_backend_services env s).2.2 = 1
      ∧ countIf Event.isEmit (start_backend_services env s).2.2 = 1 := by
  obtain ⟨cw, eo, go, po⟩ := env
  subst hc
  cases eo <;> cases go <;> cases po <;>
    first
    | exact absurd hf (by decide)
    | exact ⟨rfl, Nat.le.refl, rfl, rfl, rfl⟩
    | exact ⟨rfl, Nat.le.step Nat.le.refl, rfl, rfl, rfl⟩

/-- C3 witness: the amended theorem applied to a concrete failing
environment — the gemini spawn fails after a successful embedding
spawn — from the initial state. -/
theorem c3_spawn_error_logged_not_fatal_witness :
    (start_backend_services ⟨true, true, false, true⟩ initState).1
        = .ok "Backend services starting..."
      ∧ 1 ≤ countIf Event.isLogLine
          (start_backend_services ⟨true, true, false, true⟩ initState).2.2
      ∧ countEvent (.attempted "python")
          (start_backend_services ⟨true, true, false, true⟩ initState).2.2 = 1
      ∧ countEvent (.attempted "perl")
          (start_backend_services ⟨true, true, false, true⟩ initState).2.2 = 1
      ∧ countIf Event.isEmit
          (start_backend_services ⟨true, true, false, true⟩ initState).2.2 = 1 :=
  c3_spawn_error_logged_not_fatal ⟨true, true, false, true⟩ initState rfl rfl

/-- C4 counterexample: before any `Start` call (indeed in every state),
`check_service_health` answers `Ok("Services running")` — a Running
report, not the Stopped/not-running report the claim requires. -/
theorem c4_health_before_start_cex :
    check_service_health = Except.ok "Services running"
      ∧ ("Services running" : String) ≠ "Services stopped" :=
  ⟨rfl, by decide⟩

/-- C4 amended: `check_service_health` is a constant stub: it reports
`Ok("Services running")` always, in particular before any `Start` call;
it consults no state and can never report stopped. -/
theorem c4_health_stub_always_running :
    check_service_health = Except.ok "Services running" :=
  rfl

/-- C5: when `current_dir` succeeds and every spawn in both groups
succeeds, the background trace is exactly: python group attempt, 3 s
settle sleep, perl group attempt, 2 s settle sleep, `backend-ready`
emission.  The emission is thus delivered exactly once, as the final
event, strictly after the 2 s settle delay of the last (perl) group
has elapsed, 5 s of settle in total. -/
theorem c5_ready_emitted_once_after_last_settle (env : SpawnEnv)
    (s : SysState) (hc : env.cwdOk = true) (he : env.embeddingOk = true)
    (hg : env.geminiOk = true) (hp : env.perlOk = true) :
    (launchSequence env s).2
        = [.attempted "python", .slept 3, .attempted "perl", .slept 2,
            .emitted "backend-ready"]
      ∧ countIf Event.isEmit (launchSequence env s).2 = 1
      ∧ sleptBeforeEmit (launchSequence env s).2 = 3 + 2 := by
  obtain ⟨cw, eo, go, po⟩ := env
  subst hc; subst he; subst hg; subst hp
  exact ⟨rfl, rfl, rfl⟩

/-- C5 witness: the theorem applied to the all-success environment from
the initial state. -/
theorem c5_ready_emitted_once_after_last_settle_witness :
    (launchSequence ⟨true, true, true, true⟩ initState).2
        = [.attempted "python", .slept 3, .attempted "perl", .slept 2,
            .emitted "backend-ready"]
      ∧ countIf Event.isEmit
          (launchSequence ⟨true, true, true, true⟩ initState).2 = 1
      ∧ sleptBeforeEmit
          (launchSequence ⟨true, true, true, true⟩ initState).2 = 3 + 2 :=
  c5_ready_emitted_once_after_last_settle ⟨true, true, true, true⟩ initState
    rfl rfl rfl rfl

/-- C6: `Stop` never fails the caller — `stop_backend_services` always
returns the fixed success message; after any `stop_services` the table
is empty; a kill+wait was attempted on every handle that was in the
table; and when nothing was ever started (empty table) the call is a
no-op leaving the state unchanged. -/
theorem c6_stop_never_fails_clears_table (s : SysState) :
    (stop_backend_services s).1 = .ok "Backend services stopped"
      ∧ (BackendManager.stop_services s).table = []
      ∧ (∀ c ∈ s.table, c ∈ (BackendManager.stop_services s).killed)
      ∧ (s.table = [] → BackendManager.stop_services s = s) := by
  refine ⟨rfl, rfl, ?_, ?_⟩
  · intro c hc
    simp [BackendManager.stop_services]
    exact Or.inr hc
  · intro h
    obtain ⟨t, a, k, n⟩ := s
    simp only at h
    subst h
    simp [BackendManager.stop_services]

/-- C6 witness: stopping the never-started supervisor is a no-op. -/
theorem c6_stop_never_fails_clears_table_witness :
    BackendManager.stop_services initState = initState :=
  (c6_stop_never_fails_clears_table initState).2.2.2 rfl

/-- C7 counterexample: the perl service's program string `"perl"`
contains no path separator, so `Command::new("perl")` resolves it via
the process-wide `PATH`, not relative to the supplied working
directory — against the claim that no launched process uses the search
path. -/
theorem c7_perl_resolved_via_search_cex :
    usesPathLookup (perlCommand "/app") = true :=
  rfl

/-- C7 amended: the two python services are launched through the
relative path `./venv/bin/python3`, resolved against the supplied
working directory, but the perl service is launched through the bare
name `perl`, resolved via the process-wide search path — so startup of
the perl service does depend on the caller's environment. -/
theorem c7_python_relative_perl_via_search (root : String) :
    usesPathLookup (embeddingCommand root) = false
      ∧ usesPathLookup (geminiCommand root) = false
      ∧ usesPathLookup (perlCommand root) = true :=
  ⟨rfl, rfl, rfl⟩

/-- C8: in every launch sequence, each group is attempted exactly once
(a failed spawn is never retried); a python-group failure is logged
exactly once — and zero times when the group succeeds — and the perl
group is still attempted exactly once regardless, so a failure in one
group is not fatal to the remaining groups. -/
theorem c8_failure_surfaced_once_sequence_continues (env : SpawnEnv)
    (s : SysState) :
    countEvent (.attempted "python") (launchSequence env s).2 = 1
      ∧ countEvent (.attempted "perl") (launchSequence env s).2 = 1
      ∧ countIf Event.isPythonFailLog (launchSequence env s).2
        = (if (start_python_services env s).1.isOk then 0 else 1) := by
  obtain ⟨cw, eo, go, po⟩ := env
  cases cw <;> cases eo <;> cases go <;> cases po <;> exact ⟨rfl, rfl, rfl⟩

/-- C9: for every environment — including the one where `current_dir`
or every spawn fails and the table stays empty — the background
sequence emits exactly one event, it is `backend-ready`, it is the last
event of the trace, and 3 + 2 = 5 seconds of settle sleeping precede
it.  No code path skips or duplicates the emission. -/
theorem c9_ready_always_once_after_settle_delays (env : SpawnEnv)
    (s : SysState) :
    countIf Event.isEmit (launchSequence env s).2 = 1
      ∧ countEvent (.emitted "backend-ready") (launchSequence env s).2 = 1
      ∧ (launchSequence env s).2.getLast? = some (.emitted "backend-ready")
      ∧ sleptBeforeEmit (launchSequence env s).2 = 5 := by
  obtain ⟨cw, eo, go, po⟩ := env
  cases cw <;> cases eo <;> cases go <;> cases po <;> exact ⟨rfl, rfl, rfl, rfl⟩

/-- C10: `stop_services` is idempotent on the supervisor state: one
call empties the table, and a second consecutive call drains zero
handles (its drained list is the now-empty table) and changes nothing
— stop after stop equals a single stop. -/
theorem c10_stop_idempotent (s : SysState) :
    BackendManager.stop_services (BackendManager.stop_services s)
        = BackendManager.stop_services s
      ∧ (BackendManager.stop_services s).table = [] := by
  refine ⟨?_, rfl⟩
  simp [BackendManager.stop_services]

end Tessera
